import Mathlib

/-!
Shallow embedding of the rovergulf/utils NATS messaging glue
(src/unnamed/part_000 and src/mq/nats/stan_conn.go, package natsmq).

External library calls (nats.Connect, stan.Connect, json.Marshal,
Publish, PublishAsync, Close, nuid randomness, the clock) are passed in
as explicit oracle arguments; Go pointer mutation of the Config is made
explicit by threading the Config through and returning it; every log
line and transport invocation is recorded in an event trace.  Functions
whose Go bodies can only return normally are wrapped in Except so that
the absence of a surfaced error is a provable fact about the embedding
rather than a typing accident.
-/

set_option maxHeartbeats 1000000

namespace Natsmq

/-- Errors produced by the external transport and codec libraries. -/
abbrev Err := String

/-- JSON-marshalled payload bytes. -/
abbrev Bytes := List Nat

/-- Opaque handle standing for a live *nats.Conn. -/
abbrev NatsConnHandle := Nat

/-- Opaque handle standing for a live stan.Conn client. -/
abbrev StanClient := Nat

/-- Opaque handle standing for a *nats.EncodedConn. -/
abbrev EncodedConnHandle := Nat

/-- Model of the nats.go options this repository appends; options supplied
by the caller in the configuration are opaque UserOption values. -/
inductive NatsOption where
  | ReconnectWait (d : Int)
  | MaxReconnects (n : Int)
  | DisconnectErrHandler
  | ReconnectHandler
  | ClosedHandler
  | ErrorHandler
  | UserOption (id : Nat)
  deriving DecidableEq, Repr

/-- Model of the stan.go options this repository appends; options supplied
by the caller in the configuration are opaque UserOption values. -/
inductive StanOption where
  | SetConnectionLostHandler
  | Pings (interval maxOut : Int)
  | NatsConn (nc : NatsConnHandle)
  | PubAckWait (d : Int)
  | UserOption (id : Nat)
  deriving DecidableEq, Repr

/-- The Config consumed by the factories, with the fields the source reads
and writes: Broker, ClusterId, ClientId, AckTimeout (a Go time.Duration,
i.e. int64 nanoseconds), Tracer and Logger handles, and the two
per-transport option lists NatsConn and StanConn. -/
structure Config where
  Broker : String
  ClusterId : String
  ClientId : String
  AckTimeout : Int
  Tracer : Nat
  Logger : String
  NatsConn : List NatsOption
  StanConn : List StanOption
  deriving DecidableEq, Repr

/-- Go time.Second in nanoseconds. -/
def timeSecond : Int := 1000000000

/-- Go time.Minute in nanoseconds. -/
def timeMinute : Int := 60 * timeSecond

/-- The local totalWait of setupDefaultNatsConnOptions: 10 * time.Minute. -/
def totalWait : Int := 10 * timeMinute

/-- The local reconnectDelay of setupDefaultNatsConnOptions: 10 * time.Second. -/
def reconnectDelay : Int := 10 * timeSecond

/-- stan.DefaultAckWait, 30 * time.Second. -/
def DefaultAckWait : Int := 30 * timeSecond

/-- setupDefaultNatsConnOptions appends, in order: ReconnectWait(reconnectDelay),
MaxReconnects(int(totalWait/reconnectDelay)), and the four logging-only
lifecycle handlers. -/
def setupDefaultNatsConnOptions (opts : List NatsOption) : List NatsOption :=
  opts ++ [NatsOption.ReconnectWait reconnectDelay,
           NatsOption.MaxReconnects (totalWait / reconnectDelay),
           NatsOption.DisconnectErrHandler,
           NatsOption.ReconnectHandler,
           NatsOption.ClosedHandler,
           NatsOption.ErrorHandler]

/-- Structured log lines emitted by the package, one constructor per call
site, carrying the key/value data the source logs. -/
inductive LogEvent where
  | connectionLost (err : Err)
  | failedNatsConn (broker : String) (err : Err)
  | failedStanConn (clientId clusterId : String) (err : Err)
  | initializedStan (broker clusterId clientId : String)
  | closingConn (clientId : String)
  | closeError (clientId : String) (err : Err)
  | ackError (guid : String) (err : Err)
  | ackReceived (guid : String)
  | marshalError (err : Err)
  | publishError (clientId chanName : String) (err : Err)
  | sentMessage (chanName guid : String)
  | publishAsyncError (chanName clientId : String) (err : Err)
  | publishedAsync (chanName nid guid : String)
  | encodedConnOk (broker : String)
  deriving DecidableEq, Repr

/-- Observable events: log lines plus each invocation of an external
transport or codec operation. -/
inductive Event where
  | log (e : LogEvent)
  | marshalCall
  | publishCall (channel : String) (payload : Bytes)
  | publishAsyncCall (channel : String) (payload : Bytes)
  | closeCall
  deriving DecidableEq, Repr

/-- State of the github.com/nats-io/nuid generator: a prefix and a
sequence counter. -/
structure NUID where
  pre : Nat
  seq : Nat
  deriving DecidableEq, Repr

/-- nuid.Next: render prefix and sequence, advance the sequence. -/
def NUID.next (n : NUID) : String × NUID :=
  (toString n.pre ++ toString n.seq, { n with seq := n.seq + 1 })

/-- nuid.RandomizePrefix with the fresh random prefix passed explicitly. -/
def NUID.randomizePrefixWith (n : NUID) (r : Nat) : NUID :=
  { n with pre := r }

/-- The StanConn struct: derived client id, optional client handle (nil
before a successful connect), and the local nuid generator. -/
structure StanConn where
  clientId : String
  client : Option StanClient
  nuid : NUID
  deriving DecidableEq, Repr

/-- NewConn: replaces c.NatsConn with the option list extended by
setupDefaultNatsConnOptions (a mutation of the Config through its
pointer), then calls nats.Connect(c.Broker, c.NatsConn...), returning
any error unmodified. -/
def NewConn (natsConnect : String → List NatsOption → Except Err NatsConnHandle)
    (c : Config) : Config × Except Err NatsConnHandle :=
  let c1 := { c with NatsConn := setupDefaultNatsConnOptions c.NatsConn }
  match natsConnect c1.Broker c1.NatsConn with
  | Except.error e => (c1, Except.error e)
  | Except.ok nc => (c1, Except.ok nc)

/-- NewEncodedConn: NewConn, then nats.NewEncodedConn with the JSON
encoder; both errors propagate unmodified; logs one line on success. -/
def NewEncodedConn (natsConnect : String → List NatsOption → Except Err NatsConnHandle)
    (newEncoded : NatsConnHandle → Except Err EncodedConnHandle)
    (c : Config) : Config × List Event × Except Err EncodedConnHandle :=
  match NewConn natsConnect c with
  | (c1, Except.error e) => (c1, [], Except.error e)
  | (c1, Except.ok nc) =>
    match newEncoded nc with
    | Except.error e => (c1, [], Except.error e)
    | Except.ok enc =>
      (c1, [Event.log (LogEvent.encodedConnOk c1.Broker)], Except.ok enc)

/-- The fmt.Sprintf of NewStanConn: base client id, a dash, and the
connect-time Unix timestamp rendered in decimal. -/
def stanClientId (base : String) (unixNow : Nat) : String :=
  base ++ "-" ++ toString unixNow

/-- NewStanConn: derives the client id, establishes the nats connection
via NewConn (logging and returning its error unmodified on failure),
appends the connection-lost handler, Pings(15, 5), the nats connection,
and PubAckWait (the configured AckTimeout when positive, else
stan.DefaultAckWait) to c.StanConn, then calls stan.Connect, returning
its error unmodified on failure and the populated StanConn on success. -/
def NewStanConn
    (natsConnect : String → List NatsOption → Except Err NatsConnHandle)
    (stanConnect : String → String → List StanOption → Except Err StanClient)
    (unixNow : Nat) (nuid0 : NUID)
    (c : Config) : Config × List Event × Except Err StanConn :=
  let cid := stanClientId c.ClientId unixNow
  match NewConn natsConnect c with
  | (c1, Except.error e) =>
    (c1, [Event.log (LogEvent.failedNatsConn c1.Broker e)], Except.error e)
  | (c1, Except.ok nc) =>
    let stanOpts := c1.StanConn ++
      [StanOption.SetConnectionLostHandler,
       StanOption.Pings 15 5,
       StanOption.NatsConn nc] ++
      [if c1.AckTimeout > 0 then StanOption.PubAckWait c1.AckTimeout
       else StanOption.PubAckWait DefaultAckWait]
    let c2 := { c1 with StanConn := stanOpts }
    match stanConnect c2.ClusterId cid c2.StanConn with
    | Except.error e =>
      (c2, [Event.log (LogEvent.failedStanConn cid c2.ClusterId e)], Except.error e)
    | Except.ok sc =>
      (c2, [Event.log (LogEvent.initializedStan c2.Broker c2.ClusterId c2.ClientId)],
        Except.ok { clientId := cid, client := some sc, nuid := nuid0 })

/-- Stop: no-op when the client handle is nil; otherwise logs, calls
Close, and logs (but never returns) any close error. -/
def Stop (closeResult : Except Err Unit) (sc : StanConn) : Except Err (List Event) :=
  match sc.client with
  | none => Except.ok []
  | some _ =>
    match closeResult with
    | Except.ok _ =>
      Except.ok [Event.log (LogEvent.closingConn sc.clientId), Event.closeCall]
    | Except.error e =>
      Except.ok [Event.log (LogEvent.closingConn sc.clientId), Event.closeCall,
        Event.log (LogEvent.closeError sc.clientId e)]

/-- DefaultAckHandler: logs the acknowledgement outcome keyed by the
transport-issued id. -/
def DefaultAckHandler (sc : StanConn) (nid : String) (err : Option Err) : List Event :=
  match sc.client, err with
  | _, some e => [Event.log (LogEvent.ackError nid e)]
  | _, none => [Event.log (LogEvent.ackReceived nid)]

/-- SendMessage: nil-client guard, json.Marshal (outcome passed as an
oracle for the opaque payload), synchronous Publish; every branch
returns normally. -/
def SendMessage (sc : StanConn) (channel : String)
    (marshal : Except Err Bytes)
    (publish : String → Bytes → Except Err Unit) :
    Except Err (StanConn × List Event) :=
  match sc.client with
  | none => Except.ok (sc, [])
  | some _ =>
    match marshal with
    | Except.error e =>
      Except.ok (sc, [Event.marshalCall, Event.log (LogEvent.marshalError e)])
    | Except.ok payload =>
      match publish channel payload with
      | Except.error e =>
        Except.ok (sc, [Event.marshalCall, Event.publishCall channel payload,
          Event.log (LogEvent.publishError sc.clientId channel e)])
      | Except.ok _ =>
        let g := sc.nuid.next
        Except.ok ({ sc with nuid := g.2 },
          [Event.marshalCall, Event.publishCall channel payload,
           Event.log (LogEvent.sentMessage channel g.1)])

/-- SendAsyncMessage: nil-client guard, json.Marshal, PublishAsync with
DefaultAckHandler as callback; on success randomizes the nuid prefix
(fresh randomness passed as randPre) and advances the generator for the
log line; every branch returns normally. -/
def SendAsyncMessage (sc : StanConn) (channel : String)
    (marshal : Except Err Bytes)
    (publishAsync : String → Bytes → Except Err String)
    (randPre : Nat) :
    Except Err (StanConn × List Event) :=
  match sc.client with
  | none => Except.ok (sc, [])
  | some _ =>
    match marshal with
    | Except.error e =>
      Except.ok (sc, [Event.marshalCall, Event.log (LogEvent.marshalError e)])
    | Except.ok payload =>
      match publishAsync channel payload with
      | Except.error e =>
        Except.ok (sc, [Event.marshalCall, Event.publishAsyncCall channel payload,
          Event.log (LogEvent.publishAsyncError channel sc.clientId e)])
      | Except.ok nid =>
        let n1 := sc.nuid.randomizePrefixWith randPre
        let g := n1.next
        Except.ok ({ sc with nuid := g.2 },
          [Event.marshalCall, Event.publishAsyncCall channel payload,
           Event.log (LogEvent.publishedAsync channel nid g.1)])

/-! Helper lemmas: the decimal rendering used by the clientId derivation
is injective, proved through the left-to-right digit value of the
rendered string. -/

/-- Numeric value of one decimal digit character. -/
def digitVal (c : Char) : Nat := c.toNat - 48

/-- Left-to-right decimal value of a digit string. -/
def val10 (l : List Char) : Nat := l.foldl (fun a c => a * 10 + digitVal c) 0

theorem digitVal_digitChar : ∀ m, m < 10 → digitVal (Nat.digitChar m) = m := by decide

theorem toDigitsCore_succ_eq (b fuel n : Nat) (ds : List Char) :
    Nat.toDigitsCore b (fuel + 1) n ds =
      if n / b = 0 then Nat.digitChar (n % b) :: ds
      else Nat.toDigitsCore b fuel (n / b) (Nat.digitChar (n % b) :: ds) := rfl

theorem toDigitsCore_foldl (fuel : Nat) : ∀ (n : Nat) (ds : List Char) (a : Nat),
    n < fuel →
    ∃ k, List.foldl (fun x c => x * 10 + digitVal c) a (Nat.toDigitsCore 10 fuel n ds) =
      List.foldl (fun x c => x * 10 + digitVal c) (a * 10 ^ k + n) ds := by
  induction fuel with
  | zero => intro n ds a h; exact absurd h (Nat.not_lt_zero n)
  | succ fuel ih =>
    intro n ds a h
    have hm : n % 10 < 10 := Nat.mod_lt n (by decide)
    have hd : digitVal (Nat.digitChar (n % 10)) = n % 10 := digitVal_digitChar _ hm
    rw [toDigitsCore_succ_eq]
    by_cases h10 : n / 10 = 0
    · rw [if_pos h10]
      refine ⟨1, ?_⟩
      simp only [List.foldl_cons, hd]
      have hn : a * 10 + n % 10 = a * 10 ^ 1 + n := by
        have hx : n % 10 = n := by omega
        rw [hx, pow_one]
      rw [hn]
    · rw [if_neg h10]
      have hlt : n / 10 < fuel := by omega
      obtain ⟨k, hk⟩ := ih (n / 10) (Nat.digitChar (n % 10) :: ds) a hlt
      refine ⟨k + 1, ?_⟩
      rw [hk]
      simp only [List.foldl_cons, hd]
      have harith : (a * 10 ^ k + n / 10) * 10 + n % 10 = a * 10 ^ (k + 1) + n := by
        rw [pow_succ, Nat.add_mul, ← Nat.mul_assoc, Nat.add_assoc]
        congr 1
        omega
      rw [harith]

theorem val10_toDigits (n : Nat) : val10 (Nat.toDigits 10 n) = n := by
  obtain ⟨k, hk⟩ := toDigitsCore_foldl (n + 1) n [] 0 (Nat.lt_succ_self n)
  simp only [List.foldl_nil, Nat.zero_mul, Nat.zero_add] at hk
  exact hk

theorem natRepr_inj {m n : Nat} (h : Nat.repr m = Nat.repr n) : m = n := by
  have hd : Nat.toDigits 10 m = Nat.toDigits 10 n := congrArg String.data h
  have hv := congrArg val10 hd
  rwa [val10_toDigits, val10_toDigits] at hv

theorem stanClientId_inj (base : String) {t1 t2 : Nat}
    (h : stanClientId base t1 = stanClientId base t2) : t1 = t2 := by
  have hd := congrArg String.data h
  simp only [stanClientId, String.data_append, List.append_assoc] at hd
  have h1 := List.append_cancel_left hd
  have h2 := List.append_cancel_left h1
  exact natRepr_inj (String.ext h2)

/-! Concrete fixtures used by counterexamples and witnesses. -/

/-- A small concrete configuration. -/
def cfg0 : Config :=
  { Broker := "b", ClusterId := "cl", ClientId := "ci", AckTimeout := 0,
    Tracer := 0, Logger := "lg", NatsConn := [], StanConn := [] }

/-- The same configuration with a positive ack timeout. -/
def cfgPos : Config := { cfg0 with AckTimeout := 5 }

/-- A StanConn whose client handle is nil. -/
def scNil : StanConn :=
  { clientId := "ci-0", client := none, nuid := { pre := 0, seq := 0 } }

/-- A StanConn with a live client handle. -/
def scLive : StanConn :=
  { clientId := "ci-9", client := some 5, nuid := { pre := 1, seq := 2 } }

/-- C1: for every channel and payload, SendMessage and SendAsyncMessage
never surface an error to the caller: whatever the marshal and publish
outcomes, both operations complete normally. -/
theorem send_operations_never_surface_error
    (sc : StanConn) (channel : String) (marshal : Except Err Bytes)
    (publish : String → Bytes → Except Err Unit)
    (publishAsync : String → Bytes → Except Err String) (randPre : Nat) :
    (∃ r, SendMessage sc channel marshal publish = Except.ok r) ∧
    (∃ r, SendAsyncMessage sc channel marshal publishAsync randPre = Except.ok r) := by
  constructor
  · unfold SendMessage
    split
    · exact ⟨_, rfl⟩
    · split
      · exact ⟨_, rfl⟩
      · split
        · exact ⟨_, rfl⟩
        · exact ⟨_, rfl⟩
  · unfold SendAsyncMessage
    split
    · exact ⟨_, rfl⟩
    · split
      · exact ⟨_, rfl⟩
      · split
        · exact ⟨_, rfl⟩
        · exact ⟨_, rfl⟩

/-- C3: the factory's default policy sets a per-attempt reconnect delay of
10 seconds and a maximum reconnect count of totalWait divided by the
per-attempt delay, which equals 60, on every invocation. -/
theorem defaultNatsConnOptions_reconnect_policy (opts : List NatsOption) :
    NatsOption.ReconnectWait reconnectDelay ∈ setupDefaultNatsConnOptions opts ∧
    NatsOption.MaxReconnects (totalWait / reconnectDelay) ∈ setupDefaultNatsConnOptions opts ∧
    reconnectDelay = 10 * timeSecond ∧
    totalWait = 600 * timeSecond ∧
    totalWait / reconnectDelay = 60 := by
  refine ⟨?_, ?_, rfl, by decide, by decide⟩ <;>
    simp [setupDefaultNatsConnOptions]

/-- C10: when the client handle is nil, SendMessage and SendAsyncMessage
return immediately with the state unchanged and an empty event trace (no
marshal call, no publish call, no log line). -/
theorem nil_client_send_noop (sc : StanConn) (channel : String)
    (marshal : Except Err Bytes) (publish : String → Bytes → Except Err Unit)
    (publishAsync : String → Bytes → Except Err String) (randPre : Nat)
    (h : sc.client = none) :
    SendMessage sc channel marshal publish = Except.ok (sc, []) ∧
    SendAsyncMessage sc channel marshal publishAsync randPre = Except.ok (sc, []) := by
  unfold SendMessage SendAsyncMessage
  rw [h]
  exact ⟨rfl, rfl⟩

/-- Witness for C10 at a concrete nil-client connection. -/
theorem nil_client_send_noop_witness :
    scNil.client = none ∧
    SendMessage scNil "ch" (Except.ok []) (fun _ _ => Except.ok ()) = Except.ok (scNil, []) ∧
    SendAsyncMessage scNil "ch" (Except.ok []) (fun _ _ => Except.ok "nid") 0 =
      Except.ok (scNil, []) := by
  refine ⟨rfl, ?_⟩
  exact nil_client_send_noop scNil "ch" (Except.ok []) (fun _ _ => Except.ok ())
    (fun _ _ => Except.ok "nid") 0 rfl

/-- A successful NewStanConn populates clientId with the derived id. -/
theorem newStanConn_clientId
    (natsConnect : String → List NatsOption → Except Err NatsConnHandle)
    (stanConnect : String → String → List StanOption → Except Err StanClient)
    (unixNow : Nat) (nuid0 : NUID) (c : Config) (sc : StanConn)
    (h : (NewStanConn natsConnect stanConnect unixNow nuid0 c).2.2 = Except.ok sc) :
    sc.clientId = stanClientId c.ClientId unixNow := by
  simp only [NewStanConn] at h
  split at h
  · simp at h
  · split at h
    · simp at h
    · simp only [Except.ok.injEq] at h
      subst h
      rfl

/-- C7: the streaming client id is the configured base id concatenated
with the connect-time Unix timestamp, so two sequential connects with
the same base id at different timestamps get distinct client ids. -/
theorem stan_clientId_unique_across_connects
    (natsConnect : String → List NatsOption → Except Err NatsConnHandle)
    (stanConnect : String → String → List StanOption → Except Err StanClient)
    (unixNow1 unixNow2 : Nat) (nuid0 : NUID) (c : Config) (sc1 sc2 : StanConn)
    (h1 : (NewStanConn natsConnect stanConnect unixNow1 nuid0 c).2.2 = Except.ok sc1)
    (h2 : (NewStanConn natsConnect stanConnect unixNow2 nuid0 c).2.2 = Except.ok sc2)
    (hne : unixNow1 ≠ unixNow2) :
    sc1.clientId = stanClientId c.ClientId unixNow1 ∧
    sc2.clientId = stanClientId c.ClientId unixNow2 ∧
    sc1.clientId ≠ sc2.clientId := by
  have e1 := newStanConn_clientId natsConnect stanConnect unixNow1 nuid0 c sc1 h1
  have e2 := newStanConn_clientId natsConnect stanConnect unixNow2 nuid0 c sc2 h2
  refine ⟨e1, e2, ?_⟩
  rw [e1, e2]
  intro hEq
  exact hne (stanClientId_inj c.ClientId hEq)

/-- Witness for C7 at two concrete connects at timestamps 1 and 2. -/
theorem stan_clientId_unique_across_connects_witness :
    ({ clientId := "ci-1", client := some 3, nuid := { pre := 0, seq := 0 } } : StanConn).clientId ≠
    ({ clientId := "ci-2", client := some 3, nuid := { pre := 0, seq := 0 } } : StanConn).clientId := by
  have h := stan_clientId_unique_across_connects (fun _ _ => Except.ok 7)
    (fun _ _ _ => Except.ok 3) 1 2 { pre := 0, seq := 0 } cfg0
    { clientId := "ci-1", client := some 3, nuid := { pre := 0, seq := 0 } }
    { clientId := "ci-2", client := some 3, nuid := { pre := 0, seq := 0 } }
    rfl rfl (by decide)
  exact h.2.2

/-- C6: Stop never propagates a failure: it is a no-op on a nil client
handle, and a close error is logged and suppressed, never returned. -/
theorem stop_never_propagates (closeResult : Except Err Unit) (sc : StanConn) :
    (∃ t, Stop closeResult sc = Except.ok t) ∧
    (sc.client = none → Stop closeResult sc = Except.ok []) ∧
    (∀ cl e, sc.client = some cl →
      Stop (Except.error e) sc =
        Except.ok [Event.log (LogEvent.closingConn sc.clientId), Event.closeCall,
          Event.log (LogEvent.closeError sc.clientId e)]) := by
  refine ⟨?_, ?_, ?_⟩
  · unfold Stop
    split
    · exact ⟨_, rfl⟩
    · split
      · exact ⟨_, rfl⟩
      · exact ⟨_, rfl⟩
  · intro h
    unfold Stop
    rw [h]
  · intro cl e h
    unfold Stop
    rw [h]

/-- Witness for C6 at a nil-client connection and at a failing close. -/
theorem stop_never_propagates_witness :
    (∃ t, Stop (Except.error "boom") scLive = Except.ok t) ∧
    (scNil.client = none ∧ Stop (Except.ok ()) scNil = Except.ok []) ∧
    (scLive.client = some 5 ∧
      Stop (Except.error "boom") scLive =
        Except.ok [Event.log (LogEvent.closingConn "ci-9"), Event.closeCall,
          Event.log (LogEvent.closeError "ci-9" "boom")]) := by
  refine ⟨(stop_never_propagates (Except.error "boom") scLive).1, ⟨rfl, ?_⟩, ⟨rfl, ?_⟩⟩
  · exact (stop_never_propagates (Except.ok ()) scNil).2.1 rfl
  · exact (stop_never_propagates (Except.error "boom") scLive).2.2 5 "boom" rfl

/-- C5: when JSON marshalling fails, SendMessage and SendAsyncMessage log
the marshal error and return with the state unchanged, and the trace
contains no publish invocation: the message is dropped, never sent. -/
theorem marshal_failure_drops_message
    (sc : StanConn) (channel : String) (e : Err)
    (publish : String → Bytes → Except Err Unit)
    (publishAsync : String → Bytes → Except Err String) (randPre : Nat)
    (cl : StanClient) (hc : sc.client = some cl) :
    SendMessage sc channel (Except.error e) publish =
      Except.ok (sc, [Event.marshalCall, Event.log (LogEvent.marshalError e)]) ∧
    SendAsyncMessage sc channel (Except.error e) publishAsync randPre =
      Except.ok (sc, [Event.marshalCall, Event.log (LogEvent.marshalError e)]) ∧
    (∀ b, Event.publishCall channel b ∉
      [Event.marshalCall, Event.log (LogEvent.marshalError e)]) ∧
    (∀ b, Event.publishAsyncCall channel b ∉
      [Event.marshalCall, Event.log (LogEvent.marshalError e)]) := by
  refine ⟨?_, ?_, ?_, ?_⟩
  · unfold SendMessage
    rw [hc]
  · unfold SendAsyncMessage
    rw [hc]
  · intro b
    simp
  · intro b
    simp

/-- Witness for C5 at a concrete live connection and failing marshal. -/
theorem marshal_failure_drops_message_witness :
    scLive.client = some 5 ∧
    SendMessage scLive "ch" (Except.error "bad json") (fun _ _ => Except.ok ()) =
      Except.ok (scLive, [Event.marshalCall, Event.log (LogEvent.marshalError "bad json")]) ∧
    SendAsyncMessage scLive "ch" (Except.error "bad json") (fun _ _ => Except.ok "n") 0 =
      Except.ok (scLive, [Event.marshalCall, Event.log (LogEvent.marshalError "bad json")]) := by
  have h := marshal_failure_drops_message scLive "ch" "bad json" (fun _ _ => Except.ok ())
    (fun _ _ => Except.ok "n") 0 5 rfl
  exact ⟨rfl, h.1, h.2.1⟩

/-- Once the underlying nats connection succeeds, the option list handed
to stan.Connect (and left in the Config) is the original list extended
with the connection-lost handler, Pings(15, 5), the nats connection, and
the conditional PubAckWait. -/
theorem newStanConn_config_stanOpts
    (natsConnect : String → List NatsOption → Except Err NatsConnHandle)
    (stanConnect : String → String → List StanOption → Except Err StanClient)
    (unixNow : Nat) (nuid0 : NUID) (c : Config) (nc : NatsConnHandle)
    (h : natsConnect c.Broker (setupDefaultNatsConnOptions c.NatsConn) = Except.ok nc) :
    (NewStanConn natsConnect stanConnect unixNow nuid0 c).1.StanConn =
      c.StanConn ++
        [StanOption.SetConnectionLostHandler, StanOption.Pings 15 5, StanOption.NatsConn nc] ++
        [if c.AckTimeout > 0 then StanOption.PubAckWait c.AckTimeout
         else StanOption.PubAckWait DefaultAckWait] := by
  simp only [NewStanConn, NewConn, h]
  split
  · simp
  · simp

/-- C4: NewStanConn sets the publish ack-wait to the configured AckTimeout
when it is strictly positive, and to stan.DefaultAckWait when it is zero
or negative. -/
theorem newStanConn_ackWait
    (natsConnect : String → List NatsOption → Except Err NatsConnHandle)
    (stanConnect : String → String → List StanOption → Except Err StanClient)
    (unixNow : Nat) (nuid0 : NUID) (c : Config) (nc : NatsConnHandle)
    (h : natsConnect c.Broker (setupDefaultNatsConnOptions c.NatsConn) = Except.ok nc) :
    (0 < c.AckTimeout →
      StanOption.PubAckWait c.AckTimeout ∈
        (NewStanConn natsConnect stanConnect unixNow nuid0 c).1.StanConn) ∧
    (c.AckTimeout ≤ 0 →
      StanOption.PubAckWait DefaultAckWait ∈
        (NewStanConn natsConnect stanConnect unixNow nuid0 c).1.StanConn) := by
  have hs := newStanConn_config_stanOpts natsConnect stanConnect unixNow nuid0 c nc h
  constructor
  · intro hpos
    rw [hs, if_pos hpos]
    simp
  · intro hnonpos
    rw [hs, if_neg (by omega)]
    simp

/-- Witness for C4 at a positive and a zero configured ack timeout. -/
theorem newStanConn_ackWait_witness :
    ((fun _ _ => Except.ok 7 :
        String → List NatsOption → Except Err NatsConnHandle) cfgPos.Broker
      (setupDefaultNatsConnOptions cfgPos.NatsConn) = Except.ok 7 ∧
     (0 : Int) < cfgPos.AckTimeout ∧
     StanOption.PubAckWait cfgPos.AckTimeout ∈
       (NewStanConn (fun _ _ => Except.ok 7) (fun _ _ _ => Except.ok 3) 1
         { pre := 0, seq := 0 } cfgPos).1.StanConn) ∧
    (cfg0.AckTimeout ≤ 0 ∧
     StanOption.PubAckWait DefaultAckWait ∈
       (NewStanConn (fun _ _ => Except.ok 7) (fun _ _ _ => Except.ok 3) 1
         { pre := 0, seq := 0 } cfg0).1.StanConn) := by
  refine ⟨⟨rfl, by decide, ?_⟩, by decide, ?_⟩
  · exact (newStanConn_ackWait (fun _ _ => Except.ok 7) (fun _ _ _ => Except.ok 3) 1
      { pre := 0, seq := 0 } cfgPos 7 rfl).1 (by decide)
  · exact (newStanConn_ackWait (fun _ _ => Except.ok 7) (fun _ _ _ => Except.ok 3) 1
      { pre := 0, seq := 0 } cfg0 7 rfl).2 (by decide)

/-- C2 counterexample: NewConn does modify the Config it is given: at a
concrete configuration with an empty NatsConn list, the Config after
NewConn differs from the original (its NatsConn list now holds the six
default options). -/
theorem newConn_mutates_config :
    (NewConn (fun _ _ => Except.ok 0) cfg0).1 ≠ cfg0 := by decide

/-- C2 amended: the factories leave every Config field unchanged except
the per-transport option lists: NewConn replaces NatsConn with the
default-extended list (and leaves StanConn unchanged), and NewStanConn
additionally extends StanConn by appended streaming options. -/
theorem factory_preserves_all_but_option_lists
    (natsConnect : String → List NatsOption → Except Err NatsConnHandle)
    (stanConnect : String → String → List StanOption → Except Err StanClient)
    (unixNow : Nat) (nuid0 : NUID) (c : Config) :
    ((NewConn natsConnect c).1.Broker = c.Broker ∧
     (NewConn natsConnect c).1.ClusterId = c.ClusterId ∧
     (NewConn natsConnect c).1.ClientId = c.ClientId ∧
     (NewConn natsConnect c).1.AckTimeout = c.AckTimeout ∧
     (NewConn natsConnect c).1.Tracer = c.Tracer ∧
     (NewConn natsConnect c).1.Logger = c.Logger ∧
     (NewConn natsConnect c).1.StanConn = c.StanConn ∧
     (NewConn natsConnect c).1.NatsConn = setupDefaultNatsConnOptions c.NatsConn) ∧
    ((NewStanConn natsConnect stanConnect unixNow nuid0 c).1.Broker = c.Broker ∧
     (NewStanConn natsConnect stanConnect unixNow nuid0 c).1.ClusterId = c.ClusterId ∧
     (NewStanConn natsConnect stanConnect unixNow nuid0 c).1.ClientId = c.ClientId ∧
     (NewStanConn natsConnect stanConnect unixNow nuid0 c).1.AckTimeout = c.AckTimeout ∧
     (NewStanConn natsConnect stanConnect unixNow nuid0 c).1.Tracer = c.Tracer ∧
     (NewStanConn natsConnect stanConnect unixNow nuid0 c).1.Logger = c.Logger ∧
     (NewStanConn natsConnect stanConnect unixNow nuid0 c).1.NatsConn =
       setupDefaultNatsConnOptions c.NatsConn ∧
     ∃ tail, (NewStanConn natsConnect stanConnect unixNow nuid0 c).1.StanConn =
       c.StanConn ++ tail) := by
  have hConn : ∀ cc : Config, (NewConn natsConnect cc).1 =
      { cc with NatsConn := setupDefaultNatsConnOptions cc.NatsConn } := by
    intro cc
    simp only [NewConn]
    split
    · rfl
    · rfl
  constructor
  · rw [hConn c]
    exact ⟨rfl, rfl, rfl, rfl, rfl, rfl, rfl, rfl⟩
  · simp only [NewStanConn]
    split
    · next c1 e heq =>
      have : c1 = { c with NatsConn := setupDefaultNatsConnOptions c.NatsConn } := by
        have := congrArg Prod.fst heq
        rw [hConn c] at this
        exact this.symm
      subst this
      exact ⟨rfl, rfl, rfl, rfl, rfl, rfl, rfl, [], by simp⟩
    · next c1 nc heq =>
      have : c1 = { c with NatsConn := setupDefaultNatsConnOptions c.NatsConn } := by
        have := congrArg Prod.fst heq
        rw [hConn c] at this
        exact this.symm
      subst this
      split
      · exact ⟨rfl, rfl, rfl, rfl, rfl, rfl, rfl, _, List.append_assoc c.StanConn _ _⟩
      · exact ⟨rfl, rfl, rfl, rfl, rfl, rfl, rfl, _, List.append_assoc c.StanConn _ _⟩

/-- C8: connection-establishment failures of the underlying transports
are returned to the caller unmodified by NewConn, NewEncodedConn and
NewStanConn. -/
theorem connection_errors_returned_unmodified
    (natsConnect : String → List NatsOption → Except Err NatsConnHandle)
    (stanConnect : String → String → List StanOption → Except Err StanClient)
    (newEncoded : NatsConnHandle → Except Err EncodedConnHandle)
    (unixNow : Nat) (nuid0 : NUID) (c : Config) (e : Err) (nc : NatsConnHandle) :
    ((∀ b o, natsConnect b o = Except.error e) →
      (NewConn natsConnect c).2 = Except.error e ∧
      (NewEncodedConn natsConnect newEncoded c).2.2 = Except.error e ∧
      (NewStanConn natsConnect stanConnect unixNow nuid0 c).2.2 = Except.error e) ∧
    ((∀ b o, natsConnect b o = Except.ok nc) →
      ((∀ h2, newEncoded h2 = Except.error e) →
        (NewEncodedConn natsConnect newEncoded c).2.2 = Except.error e) ∧
      ((∀ x y z, stanConnect x y z = Except.error e) →
        (NewStanConn natsConnect stanConnect unixNow nuid0 c).2.2 = Except.error e)) := by
  constructor
  · intro hfail
    refine ⟨?_, ?_, ?_⟩
    · simp [NewConn, hfail]
    · simp [NewEncodedConn, NewConn, hfail]
    · simp [NewStanConn, NewConn, hfail]
  · intro hok
    constructor
    · intro henc
      simp [NewEncodedConn, NewConn, hok, henc]
    · intro hstan
      simp [NewStanConn, NewConn, hok, hstan]

/-- Witness for C8 with concrete constantly-failing transports. -/
theorem connection_errors_returned_unmodified_witness :
    (NewConn (fun _ _ => Except.error "down") cfg0).2 = Except.error "down" ∧
    (NewStanConn (fun _ _ => Except.ok 7) (fun _ _ _ => Except.error "stan down") 1
      { pre := 0, seq := 0 } cfg0).2.2 = Except.error "stan down" := by
  constructor
  · exact ((connection_errors_returned_unmodified (fun _ _ => Except.error "down")
      (fun _ _ _ => Except.error "down") (fun _ => Except.error "down") 1
      { pre := 0, seq := 0 } cfg0 "down" 0).1 (fun _ _ => rfl)).1
  · exact ((connection_errors_returned_unmodified (fun _ _ => Except.ok 7)
      (fun _ _ _ => Except.error "stan down") (fun _ => Except.ok 9) 1
      { pre := 0, seq := 0 } cfg0 "stan down" 7).2 (fun _ _ => rfl)).2
      (fun _ _ _ => rfl)

/-- C9: in SendAsyncMessage, exactly on async-publish success the nuid
generator gets a randomized prefix and an advanced sequence; on
async-publish failure the state, nuid included, is unchanged. -/
theorem async_success_mutates_nuid
    (sc : StanConn) (channel : String) (payload : Bytes)
    (publishAsync : String → Bytes → Except Err String) (randPre : Nat)
    (cl : StanClient) (hc : sc.client = some cl) :
    (∀ nid, publishAsync channel payload = Except.ok nid →
      SendAsyncMessage sc channel (Except.ok payload) publishAsync randPre =
        Except.ok ({ sc with nuid := { pre := randPre, seq := sc.nuid.seq + 1 } },
          [Event.marshalCall, Event.publishAsyncCall channel payload,
           Event.log (LogEvent.publishedAsync channel nid
             (toString randPre ++ toString sc.nuid.seq))])) ∧
    (∀ e, publishAsync channel payload = Except.error e →
      SendAsyncMessage sc channel (Except.ok payload) publishAsync randPre =
        Except.ok (sc, [Event.marshalCall, Event.publishAsyncCall channel payload,
          Event.log (LogEvent.publishAsyncError channel sc.clientId e)])) := by
  constructor
  · intro nid hp
    unfold SendAsyncMessage
    rw [hc]
    dsimp only
    rw [hp]
    rfl
  · intro e hp
    unfold SendAsyncMessage
    rw [hc]
    dsimp only
    rw [hp]

/-- Witness for C9 at a concrete live connection: a successful async
publish randomizes the prefix to 42 and advances the sequence. -/
theorem async_success_mutates_nuid_witness :
    scLive.client = some 5 ∧
    SendAsyncMessage scLive "ch" (Except.ok [1, 2]) (fun _ _ => Except.ok "NID") 42 =
      Except.ok ({ scLive with nuid := { pre := 42, seq := scLive.nuid.seq + 1 } },
        [Event.marshalCall, Event.publishAsyncCall "ch" [1, 2],
         Event.log (LogEvent.publishedAsync "ch" "NID"
           (toString 42 ++ toString scLive.nuid.seq))]) := by
  refine ⟨rfl, ?_⟩
  exact (async_success_mutates_nuid scLive "ch" [1, 2] (fun _ _ => Except.ok "NID")
    42 5 rfl).1 "NID" rfl

end Natsmq
